import Mathlib

/-!
Verification of the Qt frontend glue of the BitBox wallet app
(`src/frontends/qt/main.cpp`): the navigation policy filter
(`RequestInterceptor::interceptRequest`), the backend callbacks registered
with `serve` (`pushNotificationsCallback`, `responseCallback`,
`notifyUserCallback`), the `loadFinished` / `pageLoaded` gate, the
single-instance handlers (`receivedMessage`, `instanceStarted`) and the
`aboutToQuit` teardown handler.  Each C++ fragment is shallowly embedded as
an executable Lean function over an explicit state, with side effects
(external opens, log lines, tray invocations) returned as event lists.
-/

namespace BitBoxQt

/-! ## Policy filter (`RequestInterceptor::interceptRequest`, main.cpp:81-108)

The interceptor inspects the intercepted request (`QWebEngineUrlRequestInfo`)
and the current top-level URL (`mainPage->requestedUrl().toString()`), and
either returns without blocking (allow), calls `info.block(true)` (block), or
calls `systemOpen(url)` followed by `info.block(true)` (block and open
externally).  We model the decision together with its side effects: the list
of `systemOpen` invocations and the list of `std::cerr` log lines, in order.
The build with `QT_BITBOX_ALLOW_EXTERNAL_URLS` defined disables all blocking;
we model the default (enforcing) build, in which that block is not compiled. -/

inductive Decision where
  | Allow
  | Block
  | BlockAndOpenExternally
deriving DecidableEq, Repr

/-- The fields of the intercepted request the code reads:
`info.requestUrl().scheme()`, `info.requestUrl().toString()` and
`info.firstPartyUrl().toString()`. -/
structure RequestInfo where
  scheme : String
  requestUrl : String
  firstPartyUrl : String
deriving DecidableEq, Repr

/-- Decision plus observable side effects of one `interceptRequest` call. -/
structure InterceptResult where
  decision : Decision
  externalOpens : List String
  logLines : List String
deriving DecidableEq, Repr

/-- main.cpp:95: `currentUrl.contains(QRegularExpression("^qrc:/buy/.*$"))`.
With the `^` anchor and full-width `.*$`, and `QUrl::toString` never
containing a newline, this holds exactly when the current top-level URL
starts with `qrc:/buy/` (stated on the character lists so the kernel can
evaluate it). -/
def onBuyPage (currentUrl : String) : Bool :=
  List.isPrefixOf "qrc:/buy/".data currentUrl.data

/-- `RequestInterceptor::interceptRequest` (main.cpp:81-108), as a pure
function of the current top-level URL and the request.  Branch for branch:
qrc/blob schemes return untouched (allow, main.cpp:87-89); on the buy page,
equality of first-party and requested URL triggers `systemOpen` plus
`info.block(true)` (main.cpp:97-102) and anything else returns untouched
(allow, main.cpp:103); otherwise a `Blocked: <url>` line goes to stderr and
the request is blocked (main.cpp:106-107). -/
def interceptRequest (currentUrl : String) (info : RequestInfo) : InterceptResult :=
  if info.scheme = "qrc" ∨ info.scheme = "blob" then
    { decision := Decision.Allow, externalOpens := [], logLines := [] }
  else if onBuyPage currentUrl then
    if info.firstPartyUrl = info.requestUrl then
      { decision := Decision.BlockAndOpenExternally
        externalOpens := [info.requestUrl]
        logLines := [] }
    else
      { decision := Decision.Allow, externalOpens := [], logLines := [] }
  else
    { decision := Decision.Block
      externalOpens := []
      logLines := ["Blocked: " ++ info.requestUrl] }

/-! ## Application state and backend callbacks (main.cpp:28-34, 233-259)

The globals of main.cpp: `pageLoaded`, the nullable pointers `webClass`,
`view`, `trayIcon`, whether the web channel still has the backend object
registered, whether `webClassMutex` is held, and the worker thread state.
Pointers are modelled as a Bool (non-null or null) together with a liveness
Bool for the pointed-to object, so that a dangling pointer (non-null pointer,
freed object) is representable. -/

structure AppState where
  pageLoaded : Bool
  /-- the global `WebClass* webClass` pointer is non-null -/
  webClass : Bool
  /-- the `WebClass` object has not been freed -/
  webClassAlive : Bool
  /-- the global `view` pointer is non-null -/
  view : Bool
  /-- the global `QSystemTrayIcon* trayIcon` pointer is non-null -/
  trayIcon : Bool
  /-- the `QSystemTrayIcon` object has not been freed.  The tray icon is
  constructed with `view` as its parent (main.cpp:291), so deleting `view`
  destroys it. -/
  trayIconAlive : Bool
  /-- `webClass` is still registered on the `QWebChannel` -/
  channelRegistered : Bool
  /-- `webClassMutex` is held -/
  mutexHeld : Bool
  /-- `workerThread.quit()` has been called -/
  workerQuitSignaled : Bool
  /-- `workerThread.wait()` has returned -/
  workerJoined : Bool
deriving DecidableEq, Repr

/-- Invocations on the `webClass` bridge object, i.e. deliveries that reach
the UI callback through the web channel. -/
inductive UIEvent where
  | pushNotify (msg : String)
  | gotResponse (queryID : Int) (msg : String)
deriving DecidableEq, Repr

/-- `pushNotificationsCallback` (main.cpp:235-242): drop unless `pageLoaded`;
then, under `webClassMutex`, call `webClass->pushNotify(msg)` only if the
`webClass` pointer is non-null.  The callback mutates no global state, so the
returned state is the input state. -/
def pushNotificationsCallback (s : AppState) (msg : String) : AppState × List UIEvent :=
  if !s.pageLoaded then (s, [])
  else if s.webClass then (s, [UIEvent.pushNotify msg])
  else (s, [])

/-- `responseCallback` (main.cpp:244-251): drop unless `pageLoaded`; then,
under `webClassMutex`, call `webClass->gotResponse(queryID, msg)` only if the
`webClass` pointer is non-null. -/
def responseCallback (s : AppState) (queryID : Int) (msg : String) : AppState × List UIEvent :=
  if !s.pageLoaded then (s, [])
  else if s.webClass then (s, [UIEvent.gotResponse queryID msg])
  else (s, [])

inductive ConnectionType where
  | Direct
  | Queued
deriving DecidableEq, Repr

/-- A `QMetaObject::invokeMethod` on the tray icon, recording the connection
type, the method, and its two `QString` arguments. -/
inductive TrayEffect where
  | invokeMethod (conn : ConnectionType) (method : String) (title : String) (msg : String)
deriving DecidableEq, Repr

/-- `notifyUserCallback` (main.cpp:253-259): return if the `trayIcon` pointer
is null; otherwise queue `showMessage(APPNAME, msg)` onto the thread owning
the tray icon via `QMetaObject::invokeMethod(..., Qt::QueuedConnection, ...)`
(post-and-return, the caller is not blocked).  The `pageLoaded` gate of the
other two callbacks is absent, and nothing checks `trayIconAlive`: the code
only compares the pointer against null. -/
def notifyUserCallback (s : AppState) (msg : String) : AppState × List TrayEffect :=
  if !s.trayIcon then (s, [])
  else (s, [TrayEffect.invokeMethod ConnectionType.Queued "showMessage" "BitBoxApp" msg])

/-! ## Page-load gate (main.cpp:216-217)

`pageLoaded = false;` at surface construction, then
`QObject::connect(view, &QWebEngineView::loadFinished, [](bool ok){ pageLoaded = ok; });`.
A surface lifetime is the sequence of `loadFinished` success flags delivered
to that handler. -/

/-- The `loadFinished` handler body: `pageLoaded = ok`. -/
def loadFinishedHandler (loaded : Bool) (ok : Bool) : Bool := ok

/-- The value of `pageLoaded` after a sequence of `loadFinished(ok)` events,
starting from the `pageLoaded = false` at surface construction. -/
def runLoads (evs : List Bool) : Bool := evs.foldl loadFinishedHandler false

/-! ## Single-instance handlers (main.cpp:184-202) -/

/-- Observable actions of the handlers `main` connects on the
`SingleApplication` object. -/
inductive MainEffect where
  | qDebugLog (msg : String)
  | raiseView
deriving DecidableEq, Repr

/-- The `SingleApplication::receivedMessage` handler (main.cpp:187-190): it
decodes the forwarded bytes and logs them with `qDebug()`, nothing else. -/
def receivedMessageHandler (instanceId : Int) (message : String) : List MainEffect :=
  [MainEffect.qDebugLog ("Received args from secondary instance: " ++ message)]

/-- The `SingleApplication::instanceStarted` handler (main.cpp:200-202):
`view->raise()`. -/
def instanceStartedHandler : List MainEffect :=
  [MainEffect.raiseView]

/-! ## Teardown (`aboutToQuit` handler, main.cpp:297-307) -/

inductive TeardownStep where
  /-- `webClassMutex.lock()` (main.cpp:298) -/
  | lockMutex
  /-- `channel.deregisterObject(webClass)` (main.cpp:299) -/
  | deregisterChannel
  /-- `delete webClass; webClass = nullptr;` (main.cpp:300-301) -/
  | clearWebClass
  /-- `delete view; view = nullptr;` (main.cpp:302-303); the tray icon is a
  child of `view`, so it is destroyed too, while the global `trayIcon`
  pointer is left untouched -/
  | releaseView
  /-- `webClassMutex.unlock()` (main.cpp:304) -/
  | unlockMutex
  /-- `workerThread.quit()` (main.cpp:305) -/
  | quitWorker
  /-- `workerThread.wait()` (main.cpp:306) -/
  | joinWorker
deriving DecidableEq, Repr

/-- The statements of the `aboutToQuit` lambda, in source order. -/
def aboutToQuitSteps : List TeardownStep :=
  [TeardownStep.lockMutex, TeardownStep.deregisterChannel, TeardownStep.clearWebClass,
   TeardownStep.releaseView, TeardownStep.unlockMutex, TeardownStep.quitWorker,
   TeardownStep.joinWorker]

def applyTeardownStep (s : AppState) : TeardownStep → AppState
  | TeardownStep.lockMutex => { s with mutexHeld := true }
  | TeardownStep.deregisterChannel => { s with channelRegistered := false }
  | TeardownStep.clearWebClass => { s with webClass := false, webClassAlive := false }
  | TeardownStep.releaseView =>
      { s with view := false, trayIconAlive := false }
  | TeardownStep.unlockMutex => { s with mutexHeld := false }
  | TeardownStep.quitWorker => { s with workerQuitSignaled := true }
  | TeardownStep.joinWorker => { s with workerJoined := true }

/-- Running the whole `aboutToQuit` handler. -/
def aboutToQuit (s : AppState) : AppState :=
  aboutToQuitSteps.foldl applyTeardownStep s

/-- The five lifecycle actions of the teardown (the mutex lock/unlock
bracketing is not one of the five steps the spec enumerates). -/
def isLifecycleStep : TeardownStep → Bool
  | TeardownStep.lockMutex => false
  | TeardownStep.unlockMutex => false
  | _ => true

def lifecycleSteps : List TeardownStep :=
  aboutToQuitSteps.filter isLifecycleStep

/-- The state of the program once `main` has finished its setup (all objects
created and live, callbacks registered, worker running, mutex free); the
value of `pageLoaded` at that point is whatever the load events made it, here
taken as `true` (a successfully loaded surface). -/
def runningState : AppState :=
  { pageLoaded := true
    webClass := true
    webClassAlive := true
    view := true
    trayIcon := true
    trayIconAlive := true
    channelRegistered := true
    mutexHeld := false
    workerQuitSignaled := false
    workerJoined := false }

/-! ## Claims -/

/-- Claim C1: a `responseCallback` (deliverResponse) or
`pushNotificationsCallback` (pushNotify) call made while `pageLoaded` is
false invokes no UI callback and leaves the state unchanged (dropped, not
queued); and delivery reaches the UI callback only when `pageLoaded` is true
and the `webClass` bridge pointer is live. -/
theorem C1_no_ui_delivery_before_loaded (s : AppState) (q : Int) (m1 m2 : String) :
    (s.pageLoaded = false →
      responseCallback s q m1 = (s, []) ∧ pushNotificationsCallback s m2 = (s, []))
    ∧ ((responseCallback s q m1).2 ≠ [] → s.pageLoaded = true ∧ s.webClass = true)
    ∧ ((pushNotificationsCallback s m2).2 ≠ [] → s.pageLoaded = true ∧ s.webClass = true) := by
  unfold responseCallback pushNotificationsCallback
  cases hp : s.pageLoaded <;> cases hw : s.webClass <;> simp [hp, hw]

/-- Claim C1 witness: with the surface not yet loaded, both deliveries are
dropped with the state untouched. -/
theorem C1_witness :
    responseCallback { runningState with pageLoaded := false } 7 "resp"
        = ({ runningState with pageLoaded := false }, [])
    ∧ pushNotificationsCallback { runningState with pageLoaded := false } "note"
        = ({ runningState with pageLoaded := false }, []) :=
  (C1_no_ui_delivery_before_loaded { runningState with pageLoaded := false } 7 "resp" "note").1 rfl

/-- Claim C2 (code_bug evidence): after the `aboutToQuit` teardown has run,
`responseCallback` and `pushNotificationsCallback` are indeed no-ops, but the
global `trayIcon` pointer is still non-null while the tray-icon object has
been destroyed (it was a child of the deleted `view`), so `notifyUserCallback`
passes the null check and queues `showMessage` on the freed object — it is
not a fault-free no-op. -/
theorem C2_notifyUser_after_teardown_hits_freed_tray :
    (aboutToQuit runningState).trayIcon = true
    ∧ (aboutToQuit runningState).trayIconAlive = false
    ∧ (notifyUserCallback (aboutToQuit runningState) "device event").2
        = [TrayEffect.invokeMethod ConnectionType.Queued "showMessage" "BitBoxApp" "device event"]
    ∧ (responseCallback (aboutToQuit runningState) 1 "late resp").2 = []
    ∧ (pushNotificationsCallback (aboutToQuit runningState) "late note").2 = [] := by
  decide

/-- Claim C3: a request whose scheme is `qrc` or `blob` is allowed
unconditionally, with no external open and no log line, whatever the current
top-level URL and whatever the request URLs are.  The decision is the first
rule of `interceptRequest`, so no later rule is consulted. -/
theorem C3_local_schemes_allowed (currentUrl : String) (info : RequestInfo)
    (h : info.scheme = "qrc" ∨ info.scheme = "blob") :
    interceptRequest currentUrl info =
      { decision := Decision.Allow, externalOpens := [], logLines := [] } := by
  unfold interceptRequest
  rw [if_pos h]

/-- Claim C3 witness: a blob request evaluated away from the buy page is
allowed with zero side effects. -/
theorem C3_witness :
    interceptRequest "qrc:/index.html"
        { scheme := "blob", requestUrl := "blob:abc", firstPartyUrl := "qrc:/index.html" }
      = { decision := Decision.Allow, externalOpens := [], logLines := [] } :=
  C3_local_schemes_allowed "qrc:/index.html"
    { scheme := "blob", requestUrl := "blob:abc", firstPartyUrl := "qrc:/index.html" }
    (Or.inr rfl)

/-- Claim C4: for a non-local-scheme request evaluated while the top-level
page is in the buy zone and `firstPartyUrl = requestUrl`, the decision is
BlockAndOpenExternally with exactly one external open of that URL and no log
line; and conversely an external open happens in no other case.  Purity in
the request plus current top-level URL holds by construction:
`interceptRequest` is a function of exactly those two arguments. -/
theorem C4_buy_page_external_open (currentUrl : String) (info : RequestInfo) :
    (¬(info.scheme = "qrc" ∨ info.scheme = "blob") → onBuyPage currentUrl = true →
      info.firstPartyUrl = info.requestUrl →
      interceptRequest currentUrl info =
        { decision := Decision.BlockAndOpenExternally
          externalOpens := [info.requestUrl]
          logLines := [] })
    ∧ ((interceptRequest currentUrl info).externalOpens ≠ [] →
      (interceptRequest currentUrl info).decision = Decision.BlockAndOpenExternally
      ∧ (interceptRequest currentUrl info).externalOpens = [info.requestUrl]
      ∧ ¬(info.scheme = "qrc" ∨ info.scheme = "blob")
      ∧ onBuyPage currentUrl = true
      ∧ info.firstPartyUrl = info.requestUrl) := by
  constructor
  · intro h1 h2 h3
    simp [interceptRequest, h1, h2, h3]
  · intro hne
    by_cases h1 : info.scheme = "qrc" ∨ info.scheme = "blob"
    · exact absurd (by simp [interceptRequest, h1]) hne
    · cases h2 : onBuyPage currentUrl with
      | false => exact absurd (by simp [interceptRequest, h1, h2]) hne
      | true =>
        by_cases h3 : info.firstPartyUrl = info.requestUrl
        · simp [interceptRequest, h1, h2, h3]
        · exact absurd (by simp [interceptRequest, h1, h2, h3]) hne

/-- Claim C4 witness: a https request on the buy page whose first-party URL
equals the requested URL is blocked and opened externally exactly once. -/
theorem C4_witness :
    interceptRequest "qrc:/buy/moonpay"
        { scheme := "https"
          requestUrl := "https://www.moonpay.com/"
          firstPartyUrl := "https://www.moonpay.com/" }
      = { decision := Decision.BlockAndOpenExternally
          externalOpens := ["https://www.moonpay.com/"]
          logLines := [] } :=
  (C4_buy_page_external_open "qrc:/buy/moonpay"
      { scheme := "https"
        requestUrl := "https://www.moonpay.com/"
        firstPartyUrl := "https://www.moonpay.com/" }).1
    (by decide) (by decide) rfl

/-- Claim C5: a request matching neither the local-scheme rule nor the
buy-zone rule is blocked with no external open and exactly one log line
(`Blocked: <url>` on stderr); the total Lean function raises nothing. -/
theorem C5_default_deny (currentUrl : String) (info : RequestInfo)
    (h1 : ¬(info.scheme = "qrc" ∨ info.scheme = "blob"))
    (h2 : onBuyPage currentUrl = false) :
    interceptRequest currentUrl info =
      { decision := Decision.Block
        externalOpens := []
        logLines := ["Blocked: " ++ info.requestUrl] } := by
  simp [interceptRequest, h1, h2]

/-- Claim C5 witness: an external https request evaluated on the index page
is blocked with exactly one log line and no external open. -/
theorem C5_witness :
    interceptRequest "qrc:/index.html"
        { scheme := "https"
          requestUrl := "https://evil.example/x"
          firstPartyUrl := "qrc:/index.html" }
      = { decision := Decision.Block
          externalOpens := []
          logLines := ["Blocked: " ++ "https://evil.example/x"] } :=
  C5_default_deny "qrc:/index.html"
    { scheme := "https"
      requestUrl := "https://evil.example/x"
      firstPartyUrl := "qrc:/index.html" }
    (by decide) (by decide)

/-- Claim C6 counterexample: restricted to the five lifecycle actions, the
`aboutToQuit` handler does not perform them in the claimed order
deregister, clear, signal-worker, release-view, join: in the source the view
is released before the worker is signalled. -/
theorem C6_counterexample :
    ¬ lifecycleSteps =
      [TeardownStep.deregisterChannel, TeardownStep.clearWebClass, TeardownStep.quitWorker,
       TeardownStep.releaseView, TeardownStep.joinWorker] := by
  decide

/-- Claim C6 amended: the teardown performs (1) deregister the channel,
(2) clear the `webClass` liveness flag — under the exclusive lock, as shown
by `mutexHeld` after the first two statements — (3) release the UI surface
object, (4) signal the worker to quit, (5) join it, in that order, ending
with the channel deregistered, the bridge cleared, the view released and the
worker joined. -/
theorem C6_amended_order :
    lifecycleSteps =
      [TeardownStep.deregisterChannel, TeardownStep.clearWebClass, TeardownStep.releaseView,
       TeardownStep.quitWorker, TeardownStep.joinWorker]
    ∧ ((aboutToQuitSteps.take 2).foldl applyTeardownStep runningState).mutexHeld = true
    ∧ (aboutToQuit runningState).channelRegistered = false
    ∧ (aboutToQuit runningState).webClass = false
    ∧ (aboutToQuit runningState).view = false
    ∧ (aboutToQuit runningState).workerQuitSignaled = true
    ∧ (aboutToQuit runningState).workerJoined = true
    ∧ (aboutToQuit runningState).mutexHeld = false := by
  decide

/-- Claim C7: `notifyUserCallback` ignores `pageLoaded` (the UI-loaded gate
is not applied: its result is unchanged under any value of that flag), and
whenever the tray icon pointer is set, delivery happens as a
`Qt::QueuedConnection` marshal of `showMessage` onto the thread owning the
tray icon — a post-and-return handoff that does not block the calling
backend thread. -/
theorem C7_notifyUser_unconditional (s : AppState) (msg : String) (b : Bool) :
    (notifyUserCallback { s with pageLoaded := b } msg).2 = (notifyUserCallback s msg).2
    ∧ (s.trayIcon = true →
      (notifyUserCallback s msg).2
        = [TrayEffect.invokeMethod ConnectionType.Queued "showMessage" "BitBoxApp" msg]) := by
  unfold notifyUserCallback
  cases ht : s.trayIcon <;> simp [ht]

/-- Claim C7 witness: with the tray icon present, a user notification is
delivered as a queued `showMessage` invocation even though this does not
depend on the load state. -/
theorem C7_witness :
    (notifyUserCallback runningState "device connected").2
      = [TrayEffect.invokeMethod ConnectionType.Queued "showMessage" "BitBoxApp" "device connected"] :=
  (C7_notifyUser_unconditional runningState "device connected" false).2 rfl

/-- Claim C8 counterexample: `pageLoaded` is not a one-shot latch.  After the
trace `[loadFinished true]` it is true, but extending the same surface
lifetime with a failed load, `[loadFinished true, loadFinished false]`,
returns it to false without any new surface being constructed, because the
handler stores the success flag of every finished load. -/
theorem C8_counterexample :
    runLoads [true] = true ∧ runLoads [true, false] = false := by
  decide

/-- Claim C8 amended: `pageLoaded` starts at false and, after any sequence of
`loadFinished` events, equals the success flag of the most recent one; it
becomes true on a successful load and reverts to false if a later load of
the same surface finishes unsuccessfully. -/
theorem C8_amended_latest_load (evs : List Bool) (ok : Bool) :
    runLoads [] = false ∧ runLoads (evs ++ [ok]) = ok := by
  refine ⟨rfl, ?_⟩
  simp [runLoads, List.foldl_append, loadFinishedHandler]

/-- Claim C9 counterexample: the handler registered for forwarded payloads
(`receivedMessage`) does not raise the surface — on the forwarded payload
`"app aopp:xyz"` its effects contain no raise. -/
theorem C9_counterexample :
    ¬ MainEffect.raiseView ∈ receivedMessageHandler 0 "app aopp:xyz" := by
  decide

/-- Claim C9 amended: the `receivedMessage` handler only logs the forwarded
payload; the raise of the primary surface is performed by the separate
handler on the `instanceStarted` signal, which fires when a secondary
instance starts. -/
theorem C9_amended_handlers (i : Int) (m : String) :
    receivedMessageHandler i m
      = [MainEffect.qDebugLog ("Received args from secondary instance: " ++ m)]
    ∧ instanceStartedHandler = [MainEffect.raiseView] :=
  ⟨rfl, rfl⟩

/-- Claim C10: a `notifyUserCallback` call made while the `trayIcon` pointer
is null returns immediately as a silent no-op — no invocation is queued and
the state is unchanged (the notification is dropped, not queued). -/
theorem C10_notifyUser_no_tray_noop (s : AppState) (msg : String)
    (h : s.trayIcon = false) :
    notifyUserCallback s msg = (s, []) := by
  simp [notifyUserCallback, h]

/-- Claim C10 witness: in the state before the tray icon is created (as it is
while `serve` registers the callbacks), a user notification is dropped. -/
theorem C10_witness :
    notifyUserCallback { runningState with trayIcon := false, trayIconAlive := false } "early note"
      = ({ runningState with trayIcon := false, trayIconAlive := false }, []) :=
  C10_notifyUser_no_tray_noop
    { runningState with trayIcon := false, trayIconAlive := false } "early note" rfl

end BitBoxQt
